import Mathlib

/-!
Verification of the dispatch-and-heuristics core of the Knotting repository.

Strings are modelled as lists of characters (`List Char`), so that the
JavaScript string operations (`toLowerCase`, `split` on a regular expression,
`endsWith`, `trim`, ...) become executable structural functions amenable to
induction.  JavaScript regular-expression classes are ASCII-based (`\w` is
`[A-Za-z0-9_]`), which matches `Char.isAlphanum`.
-/

namespace Knotting

open scoped List

/-- Model of `String.prototype.toLowerCase` (character-wise lowering). -/
def lowerL (s : List Char) : List Char := s.map Char.toLower

/-- Model of `String.prototype.startsWith`. -/
def startsWithL (l p : List Char) : Bool := p.isPrefixOf l

/-- Model of `String.prototype.endsWith`. -/
def endsWithL (l s : List Char) : Bool := s.isSuffixOf l

/-- Model of JavaScript `\w`: the ASCII word characters `[A-Za-z0-9_]`. -/
def isWordChar (c : Char) : Bool := c.isAlphanum || c == '_'

/-- Worker for `splitRuns`: `cur` is the (reversed) segment being accumulated,
`inDelim` records whether the previous character belonged to a delimiter run. -/
def splitRunsAux (p : Char → Bool) : List Char → List Char → Bool → List (List Char)
  | [], cur, _ => [cur.reverse]
  | c :: cs, cur, inDelim =>
    if p c then
      if inDelim then splitRunsAux p cs [] true
      else cur.reverse :: splitRunsAux p cs [] true
    else splitRunsAux p cs (c :: cur) false

/-- Model of `String.prototype.split` on a one-or-more character-class regular
expression such as `/[.!?]+/`, `/\s+/` or `/\W+/`: maximal runs of characters
satisfying `p` separate the segments; a leading (resp. trailing) run produces a
leading (resp. trailing) empty segment, exactly as in JavaScript. -/
def splitRuns (p : Char → Bool) (s : List Char) : List (List Char) :=
  splitRunsAux p s [] false

/-- Model of `String.prototype.trim`. -/
def trimL (s : List Char) : List Char :=
  ((s.dropWhile Char.isWhitespace).reverse.dropWhile Char.isWhitespace).reverse

/-! ### `src/utils/aiAnalysis.ts` -/

/-- The delimiter class `[.!?]` used by `generateSummary`. -/
def sentenceDelim (c : Char) : Bool := c == '.' || c == '!' || c == '?'

/-- The fixed placeholder sentence returned by `generateSummary` when no
sentence qualifies. -/
def summaryPlaceholder : List Char :=
  "This document contains structured data or content that requires specialized analysis.".toList

/-- The separator `". "` used to join the first sentences. -/
def sepDotSpace : List Char := ". ".toList

/-- The ellipsis marker appended on truncation. -/
def ellipsisMark : List Char := "...".toList

/-- Embedding of `generateSummary` from `src/utils/aiAnalysis.ts`. -/
def generateSummary (text : List Char) : List Char :=
  let sentences := (splitRuns sentenceDelim text).filter (fun s => 10 < (trimL s).length)
  let firstSentences := List.intercalate sepDotSpace (sentences.take 3)
  if 200 < firstSentences.length then firstSentences.take 200 ++ ellipsisMark
  else if firstSentences.isEmpty then summaryPlaceholder
  else firstSentences

/-- The character replacement `replace(/[^\w\s]/g, ' ')` in `extractKeywords`. -/
def keywordChar (c : Char) : Char :=
  if isWordChar c || c.isWhitespace then c else ' '

/-- The lower-cased, punctuation-stripped tokenization of `extractKeywords`:
`text.toLowerCase().replace(/[^\w\s]/g, ' ').split(/\s+/)`. -/
def rawKeywordTokens (text : List Char) : List (List Char) :=
  splitRuns Char.isWhitespace ((lowerL text).map keywordChar)

/-- The token list `words` of `extractKeywords`: the tokenization restricted
to tokens of length `> 3`. -/
def keywordWords (text : List Char) : List (List Char) :=
  (rawKeywordTokens text).filter (fun w => 3 < w.length)

/-- The fixed stop-word set of `extractKeywords`. -/
def stopWords : List (List Char) :=
  [ "this".toList, "that".toList, "with".toList, "have".toList, "will".toList,
    "from".toList, "they".toList, "know".toList,
    "want".toList, "been".toList, "good".toList, "much".toList, "some".toList,
    "time".toList, "very".toList, "when".toList,
    "come".toList, "here".toList, "just".toList, "like".toList, "long".toList,
    "make".toList, "many".toList, "over".toList,
    "such".toList, "take".toList, "than".toList, "them".toList, "well".toList,
    "were".toList, "what".toList, "your".toList,
    "about".toList, "after".toList, "again".toList, "before".toList, "being".toList,
    "could".toList, "every".toList,
    "first".toList, "found".toList, "great".toList, "group".toList, "large".toList,
    "last".toList, "little".toList,
    "most".toList, "never".toList, "only".toList, "other".toList, "place".toList,
    "right".toList, "same".toList,
    "should".toList, "small".toList, "still".toList, "those".toList, "through".toList,
    "under".toList, "where".toList,
    "while".toList, "work".toList, "world".toList, "would".toList, "years".toList,
    "young".toList ]

/-- One step of the `wordCount` JavaScript `Map`: increment the count of `w` in
place if present, otherwise append `(w, 1)` at the end (`Map` insertion order). -/
def bump : List (List Char × Nat) → List Char → List (List Char × Nat)
  | [], w => [(w, 1)]
  | (k, n) :: rest, w => if k = w then (k, n + 1) :: rest else (k, n) :: bump rest w

/-- The guard of the counting loop of `extractKeywords`. -/
def keywordKeep (w : List Char) : Bool := !stopWords.contains w && decide (3 < w.length)

/-- One iteration of the `words.forEach` counting loop of `extractKeywords`. -/
def kwStep (acc : List (List Char × Nat)) (w : List Char) : List (List Char × Nat) :=
  if keywordKeep w then bump acc w else acc

/-- The `wordCount` map of `extractKeywords`, as an association list in
insertion order. -/
def wordCount (text : List Char) : List (List Char × Nat) :=
  (keywordWords text).foldl kwStep []

/-- The comparator `(a, b) => b[1] - a[1]` of `extractKeywords`: `a` may stay
before `b` exactly when `b.2 ≤ a.2`.  `Array.prototype.sort` is stable, which
`List.mergeSort` models. -/
def keywordLE (a b : List Char × Nat) : Bool := decide (b.2 ≤ a.2)

/-- The stable descending-frequency sort of the count structure
(`Array.from(wordCount.entries()).sort((a, b) => b[1] - a[1])`). -/
def sortedWordCount (text : List Char) : List (List Char × Nat) :=
  (wordCount text).mergeSort keywordLE

/-- Embedding of `extractKeywords` from `src/utils/aiAnalysis.ts`. -/
def extractKeywords (text : List Char) : List (List Char) :=
  ((sortedWordCount text).take 8).map Prod.fst

/-- The sentiment labels. -/
inductive Sentiment where
  | positive : Sentiment
  | negative : Sentiment
  | neutral : Sentiment
deriving DecidableEq

/-- The fixed positive-word list of `analyzeSentiment`. -/
def positiveWords : List (List Char) :=
  [ "good".toList, "great".toList, "excellent".toList, "amazing".toList,
    "wonderful".toList, "fantastic".toList,
    "love".toList, "like".toList, "enjoy".toList, "happy".toList, "pleased".toList,
    "satisfied".toList, "success".toList,
    "successful".toList, "perfect".toList, "best".toList, "awesome".toList,
    "brilliant".toList, "outstanding".toList ]

/-- The fixed negative-word list of `analyzeSentiment`. -/
def negativeWords : List (List Char) :=
  [ "bad".toList, "terrible".toList, "awful".toList, "horrible".toList,
    "hate".toList, "dislike".toList, "angry".toList,
    "sad".toList, "disappointed".toList, "frustrated".toList, "problem".toList,
    "issue".toList, "error".toList,
    "fail".toList, "failure".toList, "worst".toList, "difficult".toList,
    "hard".toList, "impossible".toList ]

/-- The tokenization `text.toLowerCase().split(/\W+/)` shared by
`analyzeSentiment` and `detectLanguage`. -/
def nonWordSplit (text : List Char) : List (List Char) :=
  splitRuns (fun c => !isWordChar c) (lowerL text)

/-- The positive-word hit count of `analyzeSentiment`. -/
def positiveCount (text : List Char) : Nat :=
  (nonWordSplit text).countP (fun w => positiveWords.contains w)

/-- The negative-word hit count of `analyzeSentiment`. -/
def negativeCount (text : List Char) : Nat :=
  (nonWordSplit text).countP (fun w => negativeWords.contains w)

/-- Embedding of `analyzeSentiment` from `src/utils/aiAnalysis.ts`. -/
def analyzeSentiment (text : List Char) : Sentiment :=
  if negativeCount text < positiveCount text then Sentiment.positive
  else if positiveCount text < negativeCount text then Sentiment.negative
  else Sentiment.neutral

/-- The fixed common-English-word list of `detectLanguage`. -/
def commonEnglishWords : List (List Char) :=
  [ "the".toList, "and".toList, "for".toList, "are".toList, "but".toList,
    "not".toList, "you".toList, "all".toList, "can".toList, "had".toList,
    "her".toList, "was".toList, "one".toList, "our".toList, "out".toList,
    "day".toList, "get".toList, "has".toList, "him".toList, "his".toList,
    "how".toList, "man".toList, "new".toList, "now".toList, "old".toList,
    "see".toList, "two".toList, "way".toList, "who".toList, "boy".toList,
    "did".toList, "its".toList, "let".toList, "put".toList, "say".toList,
    "she".toList, "too".toList, "use".toList ]

/-- The fixed common-Spanish-word list of `detectLanguage`. -/
def commonSpanishWords : List (List Char) :=
  [ "que".toList, "de".toList, "no".toList, "a".toList, "la".toList,
    "el".toList, "es".toList, "y".toList, "en".toList, "lo".toList,
    "un".toList, "por".toList, "qué".toList, "me".toList, "una".toList,
    "te".toList, "los".toList, "se".toList, "con".toList, "para".toList,
    "mi".toList, "está".toList, "si".toList, "bien".toList, "pero".toList,
    "yo".toList, "eso".toList, "las".toList, "sí".toList, "su".toList,
    "tu".toList, "aquí".toList, "del".toList, "al".toList, "como".toList,
    "le".toList, "más".toList, "esto".toList, "ya".toList, "todo".toList ]

/-- The fixed common-French-word list of `detectLanguage`. -/
def commonFrenchWords : List (List Char) :=
  [ "le".toList, "de".toList, "et".toList, "à".toList, "un".toList,
    "il".toList, "être".toList, "et".toList, "en".toList, "avoir".toList,
    "que".toList, "pour".toList, "dans".toList, "ce".toList, "son".toList,
    "une".toList, "sur".toList, "avec".toList, "ne".toList, "se".toList,
    "pas".toList, "tout".toList, "plus".toList, "par".toList, "grand".toList,
    "en".toList, "une".toList, "être".toList, "et".toList, "en".toList,
    "avoir".toList, "que".toList, "pour".toList ]

/-- The first 100 tokens examined by `detectLanguage`. -/
def languageTokens (text : List Char) : List (List Char) :=
  (nonWordSplit text).take 100

/-- The English score of `detectLanguage`. -/
def englishScore (text : List Char) : Nat :=
  (languageTokens text).countP (fun w => commonEnglishWords.contains w)

/-- The Spanish score of `detectLanguage`. -/
def spanishScore (text : List Char) : Nat :=
  (languageTokens text).countP (fun w => commonSpanishWords.contains w)

/-- The French score of `detectLanguage`. -/
def frenchScore (text : List Char) : Nat :=
  (languageTokens text).countP (fun w => commonFrenchWords.contains w)

/-- The label strings of `detectLanguage`. -/
def englishName : List Char := "English".toList

/-- Spanish label. -/
def spanishName : List Char := "Spanish".toList

/-- French label. -/
def frenchName : List Char := "French".toList

/-- Unknown label. -/
def unknownName : List Char := "Unknown".toList

/-- Embedding of `detectLanguage` from `src/utils/aiAnalysis.ts`. -/
def detectLanguage (text : List Char) : List Char :=
  if spanishScore text ≤ englishScore text ∧ frenchScore text ≤ englishScore text then
    englishName
  else if frenchScore text ≤ spanishScore text then spanishName
  else if 0 < frenchScore text then frenchName
  else unknownName

/-! ### `src/utils/fileConverter.ts`

The converter works on a `FileData` record modelling the browser `File`
object.  The third-party decoders (mammoth, XLSX, pdfjs-dist, Tesseract,
JSZip), the browser image loader, and the JavaScript builtins `JSON.parse` /
`JSON.stringify(·, null, 2)` are external collaborators: their per-file
outcomes are supplied in a `Collaborators` record, an `Except.error`
modelling a throw or a rejected promise.  `console.log` progress reporting
has no semantic effect and is omitted; the outer `try`/`catch` around the
fallback branch is unreachable in the pure model because `file.arrayBuffer()`
cannot fail once the bytes are part of the model. -/

/-- Decimal rendering of a natural number. -/
def natStr (n : Nat) : List Char := (Nat.repr n).toList

/-- Model of the browser `File` object: `size` is the byte length of the
content. -/
structure FileData where
  name : List Char
  type : List Char
  lastModified : Nat
  content : List Nat

/-- The `size` property of a `File` is its byte length. -/
def FileData.size (f : FileData) : Nat := f.content.length

/-- Model of `FileReader.readAsText`: the raw bytes decoded to characters,
with no other transformation.  The per-byte decoding is immaterial to the
claims. -/
def readTextFile (f : FileData) : List Char := f.content.map Char.ofNat

/-- The shape of a parsed JSON value (result type of the `JSON.parse`
builtin); numbers are carried as literals. -/
inductive Json where
  | null : Json
  | bool (b : Bool) : Json
  | num (lit : List Char) : Json
  | str (s : List Char) : Json
  | arr (elems : List Json) : Json
  | obj (fields : List (List Char × Json)) : Json

/-- One entry reported by the JSZip `forEach` iteration. -/
structure ArchiveEntry where
  path : List Char
  isDir : Bool
  uncompressedSize : Nat

/-- Outcomes of the external collaborator calls for one file. -/
structure Collaborators where
  jsonParse : List Char → Option Json
  jsonStringify2 : Json → List Char
  docx : Except (List Char) (List Char)
  excelSheets : Except (List Char) (List (List Char × List Char))
  pdfPages : Except (List Char) (List (List Char))
  ocr : Except (List Char) (List Char)
  archiveEntries : Except (List Char) (List ArchiveEntry)
  imageDims : Except (List Char) (Nat × Nat)

/-- Newline. -/
def nlStr : List Char := "\n".toList

/-- Blank between hex bytes. -/
def spaceStr : List Char := " ".toList

/-- The separator line produced by `'=' .repeat(50)`. -/
def eqLine : List Char := List.replicate 50 '='

/-- Error message of `convertDocxToText`. -/
def failedDocxMsg : List Char := "Failed to convert DOCX file".toList

/-- Error message of `convertExcelToText`. -/
def failedExcelMsg : List Char := "Failed to convert Excel file".toList

/-- Error message of `convertPdfToText`. -/
def failedPdfMsg : List Char := "Failed to convert PDF file".toList

/-- Error message of `convertArchiveToText`. -/
def failedArchiveMsg : List Char := "Failed to read archive file".toList

/-- Embedding of `convertDocxToText`: wraps a mammoth throw into the fixed
failure message. -/
def convertDocxToText (c : Collaborators) : Except (List Char) (List Char) :=
  match c.docx with
  | Except.error _ => Except.error failedDocxMsg
  | Except.ok v => Except.ok v

/-- Sheet header prefix. -/
def sheetLabel : List Char := "Sheet: ".toList

/-- One sheet's contribution to the Excel output. -/
def sheetText (acc : List Char) (s : List Char × List Char) : List Char :=
  acc ++ sheetLabel ++ s.1 ++ nlStr ++ eqLine ++ nlStr ++ s.2 ++ nlStr ++ nlStr

/-- Embedding of `convertExcelToText`. -/
def convertExcelToText (c : Collaborators) : Except (List Char) (List Char) :=
  match c.excelSheets with
  | Except.error _ => Except.error failedExcelMsg
  | Except.ok sheets => Except.ok (sheets.foldl sheetText [])

/-- Page header prefix. -/
def pageLabel : List Char := "Page ".toList

/-- Colon. -/
def colonStr : List Char := ":".toList

/-- One page's contribution to the PDF output (`pr.1` is the 1-based page
number). -/
def pdfPageText (pr : Nat × List Char) : List Char :=
  pageLabel ++ natStr pr.1 ++ colonStr ++ nlStr ++ pr.2 ++ nlStr ++ nlStr

/-- Embedding of `convertPdfToText`. -/
def convertPdfToText (c : Collaborators) : Except (List Char) (List Char) :=
  match c.pdfPages with
  | Except.error _ => Except.error failedPdfMsg
  | Except.ok pages =>
    Except.ok (trimL ((List.enumFrom 1 pages).foldl (fun acc pr => acc ++ pdfPageText pr) []))

/-- Label of the name line. -/
def fileLabel : List Char := "File: ".toList

/-- Label of the type line. -/
def typeLabel : List Char := "Type: ".toList

/-- Label of the size line. -/
def sizeLabel : List Char := "Size: ".toList

/-- Label of the timestamp line. -/
def lastModLabel : List Char := "Last Modified: ".toList

/-- Label of the dimensions line. -/
def dimLabel : List Char := "Dimensions: ".toList

/-- Separator of the dimension pair. -/
def dimSep : List Char := "x".toList

/-- Unit suffix of the dimensions line. -/
def pxSuffix : List Char := "px".toList

/-- Header of the image-metadata block. -/
def imageMetaHeader : List Char := "Image Metadata:\n".toList

/-- Model of `new Date(n).toLocaleString()`: an environment API, rendered
here as the decimal timestamp; the exact rendering is immaterial to the
claims. -/
def dateToLocaleString (n : Nat) : List Char := natStr n

/-! `formatFileSize` idealizes the JavaScript floating-point pipeline
`Math.floor(Math.log bytes / Math.log 1024)`, `(bytes / 1024 ** i).toFixed 2`
and `parseFloat` with exact arithmetic: `Nat.log 1024` is the exact floor
logarithm, `renderFixed2` rounds half-up to two decimals and drops trailing
zeros the way `parseFloat` does. -/

/-- The 4-entry unit table of `formatFileSize`. -/
def sizeNames : List (List Char) := [ "Bytes".toList, "KB".toList, "MB".toList, "GB".toList ]

/-- JavaScript coerces an out-of-bounds array read to the string
`undefined` when interpolated. -/
def undefinedStr : List Char := "undefined".toList

/-- The unit rendered for unit index `i`: out-of-bounds lookups coerce to
`undefined`. -/
def unitName (i : Nat) : List Char := (sizeNames[i]?).getD undefinedStr

/-- Lower-case hexadecimal digits. -/
def hexDigits : List Char := "0123456789abcdef".toList

/-- A decimal digit character. -/
def digitChar (n : Nat) : Char := hexDigits.getD n '0'

/-- Model of `parseFloat((num / den).toFixed 2)` over exact arithmetic, for
`den ≠ 0`. -/
def renderFixed2 (num den : Nat) : List Char :=
  let m := (200 * num + den) / (2 * den)
  let ip := m / 100
  let fr := m % 100
  if fr = 0 then natStr ip
  else if fr % 10 = 0 then natStr ip ++ ".".toList ++ natStr (fr / 10)
  else natStr ip ++ ".".toList ++ [digitChar (fr / 10), digitChar (fr % 10)]

/-- The literal rendering of zero bytes. -/
def zeroBytesStr : List Char := "0 Bytes".toList

/-- Embedding of `formatFileSize` from `src/utils/fileConverter.ts`. -/
def formatFileSize (bytes : Nat) : List Char :=
  if bytes = 0 then zeroBytesStr
  else
    let i := Nat.log 1024 bytes
    renderFixed2 bytes (1024 ^ i) ++ spaceStr ++ unitName i

/-- Metadata block of `extractImageMetadata`; the pixel dimensions are
appended only when the image loader collaborator succeeds. -/
def extractImageMetadata (f : FileData) (c : Collaborators) : List Char :=
  let base := [ fileLabel ++ f.name, typeLabel ++ f.type,
    sizeLabel ++ formatFileSize f.size,
    lastModLabel ++ dateToLocaleString f.lastModified ]
  let metadata := match c.imageDims with
    | Except.ok wh => base ++ [dimLabel ++ natStr wh.1 ++ dimSep ++ natStr wh.2 ++ pxSuffix]
    | Except.error _ => base
  imageMetaHeader ++ List.intercalate nlStr metadata

/-- The fixed header prefixed to recognized OCR text. -/
def ocrHeader : List Char := "OCR Text Content:\n".toList

/-- Embedding of `convertImageToText`: a Tesseract throw is caught and
replaced by the metadata block; whitespace-only recognized text also falls
back to metadata. -/
def convertImageToText (f : FileData) (c : Collaborators) : Except (List Char) (List Char) :=
  match c.ocr with
  | Except.error _ => Except.ok (extractImageMetadata f c)
  | Except.ok t =>
    if (trimL t).isEmpty then Except.ok (extractImageMetadata f c)
    else Except.ok (ocrHeader ++ t ++ nlStr ++ nlStr ++ extractImageMetadata f c)

/-- Opening of the archive header line. -/
def archiveHeaderA : List Char := "Archive Contents (".toList

/-- Closing of the archive header line. -/
def archiveHeaderB : List Char := "):\n".toList

/-- Opening of a file entry's size annotation. -/
def entrySizeOpen : List Char := " (".toList

/-- Closing of a file entry's size annotation. -/
def entrySizeClose : List Char := ")".toList

/-- Tag of a directory entry. -/
def dirTag : List Char := " (directory)".toList

/-- One line of the archive listing. -/
def archiveEntryLine (e : ArchiveEntry) : List Char :=
  if e.isDir then e.path ++ dirTag
  else e.path ++ entrySizeOpen ++ formatFileSize e.uncompressedSize ++ entrySizeClose

/-- Embedding of `convertArchiveToText`. -/
def convertArchiveToText (f : FileData) (c : Collaborators) : Except (List Char) (List Char) :=
  match c.archiveEntries with
  | Except.error _ => Except.error failedArchiveMsg
  | Except.ok entries =>
    Except.ok (archiveHeaderA ++ f.name ++ archiveHeaderB ++ eqLine ++ nlStr ++
      List.intercalate nlStr (entries.map archiveEntryLine))

/-- Two lower-case hex digits of a byte (`b.toString(16).padStart(2, '0')`
for `b < 256`). -/
def hexByte (b : Nat) : List Char := [digitChar (b / 16 % 16), digitChar (b % 16)]

/-- The magic-number table of `detectFileSignature`. -/
def signatureTable : List (List Char × List Char) :=
  [ ( "89504E47".toList, "PNG Image".toList),
    ( "FFD8FFE0".toList, "JPEG Image".toList),
    ( "47494638".toList, "GIF Image".toList),
    ( "25504446".toList, "PDF Document".toList),
    ( "504B0304".toList, "ZIP Archive".toList),
    ( "52617221".toList, "RAR Archive".toList),
    ( "7F454C46".toList, "ELF Executable".toList),
    ( "4D5A9000".toList, "Windows Executable".toList) ]

/-- First-match association lookup (the JavaScript object-literal read). -/
def lookupSig : List (List Char × List Char) → List Char → Option (List Char)
  | [], _ => none
  | (k, v) :: rest, h => if k = h then some v else lookupSig rest h

/-- Embedding of `detectFileSignature`: the first four bytes in upper-case
hex against the magic-number table. -/
def detectFileSignature (data : List Nat) : Option (List Char) :=
  lookupSig signatureTable ((((data.take 4).map hexByte).flatten).map Char.toUpper)

/-- Printable-ASCII test of `extractStrings`. -/
def printableAscii (b : Nat) : Bool := decide (32 ≤ b) && decide (b ≤ 126)

/-- Worker of `extractStrings`; `cur` is the reversed current run. -/
def extractStringsAux : List Nat → List Char → List (List Char)
  | [], cur => if 4 ≤ cur.length then [cur.reverse] else []
  | b :: bs, cur =>
    if printableAscii b then extractStringsAux bs (Char.ofNat b :: cur)
    else if 4 ≤ cur.length then cur.reverse :: extractStringsAux bs []
    else extractStringsAux bs []

/-- Embedding of `extractStrings`: printable-ASCII runs of length at least 4,
capped at 100. -/
def extractStrings (data : List Nat) : List (List Char) :=
  ((extractStringsAux data []).filter (fun s => 4 ≤ s.length)).take 100

/-- The `file.type || 'Binary file'` fallback. -/
def binaryTypeFallback : List Char := "Binary file".toList

/-- Header of the analysis block. -/
def fileAnalysisLabel : List Char := "File Analysis:".toList

/-- Prefix of the byte-count line. -/
def binBytesLabel : List Char := "- Binary file with ".toList

/-- Suffix of the byte-count line. -/
def bytesWord : List Char := " bytes".toList

/-- Label of the hex-dump line. -/
def hexDumpLabel : List Char := "- First 16 bytes (hex): ".toList

/-- Label of the signature line. -/
def detectedLabel : List Char := "- Detected format: ".toList

/-- Header of the embedded-strings block. -/
def embeddedLabel : List Char := "Embedded Strings:".toList

/-- Bullet prefix of an embedded string. -/
def dashStr : List Char := "- ".toList

/-- Opening of the remainder count. -/
def moreOpen : List Char := "... and ".toList

/-- Closing of the remainder count. -/
def moreClose : List Char := " more".toList

/-- Embedding of `extractBinaryFileInfo`. -/
def extractBinaryFileInfo (f : FileData) (data : List Nat) : List Char :=
  let info := [ fileLabel ++ f.name,
    typeLabel ++ (if f.type.isEmpty then binaryTypeFallback else f.type),
    sizeLabel ++ formatFileSize f.size,
    lastModLabel ++ dateToLocaleString f.lastModified,
    [],
    fileAnalysisLabel,
    binBytesLabel ++ natStr data.length ++ bytesWord,
    hexDumpLabel ++ List.intercalate spaceStr ((data.take 16).map hexByte) ]
  let info := match detectFileSignature data with
    | some sig => info ++ [detectedLabel ++ sig]
    | none => info
  let strs := extractStrings data
  let info :=
    if strs.isEmpty then info
    else info ++ [[], embeddedLabel] ++ (strs.take 20).map (fun s => dashStr ++ s) ++
      (if 20 < strs.length then [moreOpen ++ natStr (strs.length - 20) ++ moreClose] else [])
  List.intercalate nlStr info

/-! Dispatch conditions, in source order; `n` and `t` are the lowered file
name and declared MIME type. -/

/-- MIME prefix of rule 1. -/
def textSlash : List Char := "text/".toList

/-- Extension of rule 1. -/
def extTxt : List Char := ".txt".toList

/-- Extension of rule 1. -/
def extMd : List Char := ".md".toList

/-- Extension of rule 1. -/
def extCsv : List Char := ".csv".toList

/-- MIME type of rule 2. -/
def mimeJson : List Char := "application/json".toList

/-- Extension of rule 2. -/
def extJson : List Char := ".json".toList

/-- MIME type of rule 3. -/
def mimeAppXml : List Char := "application/xml".toList

/-- MIME type of rule 3. -/
def mimeTextXml : List Char := "text/xml".toList

/-- MIME type of rule 3. -/
def mimeTextHtml : List Char := "text/html".toList

/-- Extension of rule 3. -/
def extXml : List Char := ".xml".toList

/-- Extension of rule 3. -/
def extHtml : List Char := ".html".toList

/-- Extension of rule 3. -/
def extHtm : List Char := ".htm".toList

/-- MIME type of rule 4. -/
def mimeAppJs : List Char := "application/javascript".toList

/-- MIME type of rule 4. -/
def mimeTextJs : List Char := "text/javascript".toList

/-- MIME type of rule 4. -/
def mimeTextCss : List Char := "text/css".toList

/-- Extension of rule 4. -/
def extJs : List Char := ".js".toList

/-- Extension of rule 4. -/
def extCss : List Char := ".css".toList

/-- Extension of rule 4. -/
def extTs : List Char := ".ts".toList

/-- Extension of rule 4. -/
def extTsx : List Char := ".tsx".toList

/-- Extension of rule 4. -/
def extJsx : List Char := ".jsx".toList

/-- MIME type of rule 5. -/
def mimeDocx : List Char :=
  "application/vnd.openxmlformats-officedocument.wordprocessingml.document".toList

/-- Extension of rule 5. -/
def extDocx : List Char := ".docx".toList

/-- MIME type of rule 6. -/
def mimeXlsx : List Char :=
  "application/vnd.openxmlformats-officedocument.spreadsheetml.sheet".toList

/-- MIME type of rule 6. -/
def mimeXls : List Char := "application/vnd.ms-excel".toList

/-- Extension of rule 6. -/
def extXlsx : List Char := ".xlsx".toList

/-- Extension of rule 6. -/
def extXls : List Char := ".xls".toList

/-- MIME type of rule 7. -/
def mimePdf : List Char := "application/pdf".toList

/-- Extension of rule 7. -/
def extPdf : List Char := ".pdf".toList

/-- MIME prefix of rule 8. -/
def imageSlash : List Char := "image/".toList

/-- Extension of rule 8. -/
def extPng : List Char := ".png".toList

/-- Extension of rule 8. -/
def extJpg : List Char := ".jpg".toList

/-- Extension of rule 8. -/
def extJpeg : List Char := ".jpeg".toList

/-- Extension of rule 8. -/
def extGif : List Char := ".gif".toList

/-- Extension of rule 8. -/
def extBmp : List Char := ".bmp".toList

/-- Extension of rule 9. -/
def extZip : List Char := ".zip".toList

/-- Extension of rule 9. -/
def extJar : List Char := ".jar".toList

/-- MIME type of rule 10. -/
def mimeSvg : List Char := "image/svg+xml".toList

/-- Extension of rule 10. -/
def extSvg : List Char := ".svg".toList

/-- Extension of rule 11. -/
def extLog : List Char := ".log".toList

/-- Extension of rule 11. -/
def extCfg : List Char := ".cfg".toList

/-- Extension of rule 11. -/
def extIni : List Char := ".ini".toList

/-- Rule 1: text files. -/
def isTextRule (n t : List Char) : Bool :=
  startsWithL t textSlash || endsWithL n extTxt || endsWithL n extMd || endsWithL n extCsv

/-- Rule 2: JSON files. -/
def isJsonRule (n t : List Char) : Bool := t == mimeJson || endsWithL n extJson

/-- Rule 3: XML/HTML files. -/
def isMarkupRule (n t : List Char) : Bool :=
  t == mimeAppXml || t == mimeTextXml || t == mimeTextHtml ||
    endsWithL n extXml || endsWithL n extHtml || endsWithL n extHtm

/-- Rule 4: JavaScript/CSS files. -/
def isScriptRule (n t : List Char) : Bool :=
  t == mimeAppJs || t == mimeTextJs || t == mimeTextCss ||
    endsWithL n extJs || endsWithL n extCss || endsWithL n extTs ||
    endsWithL n extTsx || endsWithL n extJsx

/-- Rule 5: Word documents. -/
def isDocxRule (n t : List Char) : Bool := t == mimeDocx || endsWithL n extDocx

/-- Rule 6: Excel files. -/
def isExcelRule (n t : List Char) : Bool :=
  t == mimeXlsx || t == mimeXls || endsWithL n extXlsx || endsWithL n extXls

/-- Rule 7: PDF files. -/
def isPdfRule (n t : List Char) : Bool := t == mimePdf || endsWithL n extPdf

/-- Rule 8: image files (OCR). -/
def isImageRule (n t : List Char) : Bool :=
  startsWithL t imageSlash || endsWithL n extPng || endsWithL n extJpg ||
    endsWithL n extJpeg || endsWithL n extGif || endsWithL n extBmp

/-- Rule 9: archive files. -/
def isArchiveRule (n : List Char) : Bool := endsWithL n extZip || endsWithL n extJar

/-- Rule 10: SVG files. -/
def isSvgRule (n t : List Char) : Bool := t == mimeSvg || endsWithL n extSvg

/-- Rule 11: log files. -/
def isLogRule (n : List Char) : Bool :=
  endsWithL n extLog || endsWithL n extCfg || endsWithL n extIni

/-- The zero-byte scan of the fallback branch: any of the first
`min 1000 data.length` bytes equal to zero. -/
def hasZeroByte (data : List Nat) : Bool := (data.take 1000).any (fun b => b == 0)

/-- Embedding of `convertFileToText` from `src/utils/fileConverter.ts`:
the dispatch chain, first match wins, in source order. -/
def convertFileToText (f : FileData) (c : Collaborators) : Except (List Char) (List Char) :=
  let fileName := lowerL f.name
  let fileType := lowerL f.type
  if isTextRule fileName fileType then Except.ok (readTextFile f)
  else if isJsonRule fileName fileType then
    match c.jsonParse (readTextFile f) with
    | some j => Except.ok (c.jsonStringify2 j)
    | none => Except.ok (readTextFile f)
  else if isMarkupRule fileName fileType then Except.ok (readTextFile f)
  else if isScriptRule fileName fileType then Except.ok (readTextFile f)
  else if isDocxRule fileName fileType then convertDocxToText c
  else if isExcelRule fileName fileType then convertExcelToText c
  else if isPdfRule fileName fileType then convertPdfToText c
  else if isImageRule fileName fileType then convertImageToText f c
  else if isArchiveRule fileName then convertArchiveToText f c
  else if isSvgRule fileName fileType then Except.ok (readTextFile f)
  else if isLogRule fileName then Except.ok (readTextFile f)
  else if hasZeroByte f.content then Except.ok (extractBinaryFileInfo f f.content)
  else Except.ok (readTextFile f)

/-! ### Generic helpers -/

instance : DecidableEq (Except (List Char) (List Char)) := fun a b =>
  match a, b with
  | Except.ok x, Except.ok y =>
    if h : x = y then isTrue (by rw [h]) else isFalse (fun hh => h (Except.ok.inj hh))
  | Except.error x, Except.error y =>
    if h : x = y then isTrue (by rw [h]) else isFalse (fun hh => h (Except.error.inj hh))
  | Except.ok _, Except.error _ => isFalse (fun hh => Except.noConfusion hh)
  | Except.error _, Except.ok _ => isFalse (fun hh => Except.noConfusion hh)

/-- Success test on extraction results. -/
def exceptIsOk : Except (List Char) (List Char) → Bool
  | Except.ok _ => true
  | Except.error _ => false

/-! ### Claim C7 -/

/-- The example input of claim C7. -/
def sentimentExampleText : List Char :=
  "I love this great product. It works perfectly.".toList

/-- Claim C7: on the input text `I love this great product. It works
perfectly.` the sentiment heuristic counts exactly two positive-word hits
and zero negative-word hits in the lower-cased non-word-split tokenization,
and therefore returns the label positive. -/
theorem analyzeSentiment_example_positive :
    analyzeSentiment sentimentExampleText = Sentiment.positive ∧
    positiveCount sentimentExampleText = 2 ∧
    negativeCount sentimentExampleText = 0 :=
  ⟨rfl, rfl, rfl⟩

/-! ### Claim C9 -/

/-- Claim C9: `detectLanguage` never returns the label `Unknown`: its result
is always one of English, Spanish and French, and whenever all three scores
are zero (in particular on empty text) the English branch is taken. -/
theorem detectLanguage_never_unknown (text : List Char) :
    detectLanguage text ≠ unknownName ∧
    (detectLanguage text = englishName ∨ detectLanguage text = spanishName ∨
      detectLanguage text = frenchName) ∧
    (englishScore text = 0 ∧ spanishScore text = 0 ∧ frenchScore text = 0 →
      detectLanguage text = englishName) := by
  unfold detectLanguage
  split_ifs with h1 h2 h3
  · exact ⟨by decide, Or.inl rfl, fun _ => rfl⟩
  · refine ⟨by decide, Or.inr (Or.inl rfl), fun h => absurd ⟨h.2.1.le.trans ?_, ?_⟩ h1⟩
    · omega
    · omega
  · refine ⟨by decide, Or.inr (Or.inr rfl), fun h => absurd ⟨?_, ?_⟩ h1⟩
    · omega
    · omega
  · exact absurd (by omega) h3

/-- Witness for claim C9 at the empty text: all scores are zero there and the
result is English. -/
theorem detectLanguage_never_unknown_witness :
    (englishScore [] = 0 ∧ spanishScore [] = 0 ∧ frenchScore [] = 0) ∧
    detectLanguage [] = englishName :=
  ⟨by decide, (detectLanguage_never_unknown []).2.2 (by decide)⟩

/-! ### Claim C3 -/

/-- Claim C3: the summary is at most 203 characters long (200 characters of
content plus the 3-character ellipsis marker, appended exactly when the
joined first-3-sentences string exceeds 200 characters), it is never empty,
and when no sentence segment has trimmed length exceeding 10 characters the
fixed placeholder sentence is returned. -/
theorem generateSummary_bounds (text : List Char) :
    (generateSummary text).length ≤ 203 ∧
    generateSummary text ≠ [] ∧
    ((∀ s ∈ splitRuns sentenceDelim text, (trimL s).length ≤ 10) →
      generateSummary text = summaryPlaceholder) := by
  simp only [generateSummary]
  split_ifs with h1 h2
  · refine ⟨?_, ?_, ?_⟩
    · simp only [List.length_append, List.length_take]
      have : ellipsisMark.length = 3 := by decide
      omega
    · intro h
      have := congrArg List.length h
      simp only [List.length_append, List.length_take, List.length_nil] at this
      have h3 : ellipsisMark.length = 3 := by decide
      omega
    · intro h
      exfalso
      have hnil : (splitRuns sentenceDelim text).filter
          (fun s => decide (10 < (trimL s).length)) = [] := by
        rw [List.filter_eq_nil_iff]
        intro a ha
        simpa using Nat.not_lt.mpr (h a ha)
      rw [hnil] at h1
      simp [List.intercalate] at h1
  · exact ⟨by decide, by decide, fun _ => rfl⟩
  · refine ⟨by omega, List.isEmpty_eq_false.mp (Bool.not_eq_true _ ▸ by simpa using h2), ?_⟩
    intro h
    exfalso
    apply h2
    have hnil : (splitRuns sentenceDelim text).filter
        (fun s => decide (10 < (trimL s).length)) = [] := by
      rw [List.filter_eq_nil_iff]
      intro a ha
      simpa using Nat.not_lt.mpr (h a ha)
    rw [hnil]
    simp [List.intercalate]

/-- Witness for claim C3 at the empty text: every segment of the split (the
single empty segment) has trimmed length at most 10, and the placeholder is
returned. -/
theorem generateSummary_bounds_witness :
    (∀ s ∈ splitRuns sentenceDelim [], (trimL s).length ≤ 10) ∧
    generateSummary [] = summaryPlaceholder :=
  ⟨by decide, (generateSummary_bounds []).2.2 (by decide)⟩

/-! ### Claims C8 and C10 -/

/-- The string rendered by `formatFileSize` at `1024 ^ 4` bytes. -/
def oneUndefinedStr : List Char := "1 undefined".toList

/-- Claim C8 (code bug): zero renders literally as `0 Bytes`, but at the
failing input `1024 ^ 4` bytes (1 TiB) the computed unit index is 4, outside
the 4-entry unit table, and the rendered string is `1 undefined`, whose unit
is not one of Bytes, KB, MB, GB as the claim requires. -/
theorem formatFileSize_unit_overflow_bug :
    formatFileSize 0 = zeroBytesStr ∧
    formatFileSize (1024 ^ 4) = oneUndefinedStr ∧
    undefinedStr ∉ sizeNames := by
  refine ⟨rfl, ?_, by decide⟩
  have hlog : Nat.log 1024 (1024 ^ 4) = 4 := Nat.log_pow (by norm_num) 4
  unfold formatFileSize
  rw [if_neg (by norm_num), hlog]
  decide

/-- Claim C10: for every byte count of at least `1024 ^ 4`, the unit index
computed by `formatFileSize` is 4 or more, outside the 4-entry unit table
`sizeNames`; the lookup misses, so the rendered unit is the out-of-bounds
marker and not one of the four unit names. -/
theorem formatFileSize_index_out_of_bounds (n : Nat) (h : 1024 ^ 4 ≤ n) :
    4 ≤ Nat.log 1024 n ∧
    sizeNames[Nat.log 1024 n]? = none ∧
    unitName (Nat.log 1024 n) = undefinedStr ∧
    undefinedStr ∉ sizeNames ∧
    formatFileSize n =
      renderFixed2 n (1024 ^ Nat.log 1024 n) ++ spaceStr ++ undefinedStr := by
  have hn : n ≠ 0 := by
    intro h0
    rw [h0] at h
    omega
  have h4 : 4 ≤ Nat.log 1024 n := (Nat.pow_le_iff_le_log (by norm_num) hn).mp h
  have hnone : sizeNames[Nat.log 1024 n]? = none := by
    apply List.getElem?_eq_none
    rw [show sizeNames.length = 4 from rfl]
    exact h4
  have hname : unitName (Nat.log 1024 n) = undefinedStr := by
    unfold unitName
    rw [hnone]
    rfl
  refine ⟨h4, hnone, hname, by decide, ?_⟩
  simp only [formatFileSize]
  rw [if_neg hn, hname]

/-- Witness for claim C10 at exactly `1024 ^ 4` bytes. -/
theorem formatFileSize_index_out_of_bounds_witness :
    1024 ^ 4 ≤ 1024 ^ 4 ∧ 4 ≤ Nat.log 1024 (1024 ^ 4) ∧
    unitName (Nat.log 1024 (1024 ^ 4)) = undefinedStr :=
  ⟨le_refl _, (formatFileSize_index_out_of_bounds (1024 ^ 4) (le_refl _)).1,
    (formatFileSize_index_out_of_bounds (1024 ^ 4) (le_refl _)).2.2.1⟩

/-! ### Dispatch reasoning -/

/-- The test `endsWithL` decides the suffix relation. -/
theorem endsWithL_iff {l s : List Char} : endsWithL l s = true ↔ s <:+ l := by
  simp [endsWithL]

/-- Two suffix-incompatible extensions cannot both terminate the same name. -/
theorem endsWithL_excl {l a b : List Char} (h : endsWithL l a = true)
    (hab : ¬ a <:+ b) (hba : ¬ b <:+ a) : endsWithL l b = false := by
  rw [Bool.eq_false_iff]
  intro hb
  rcases List.suffix_or_suffix_of_suffix (endsWithL_iff.mp h) (endsWithL_iff.mp hb) with h2 | h2
  · exact hab h2
  · exact hba h2

/-- A name ending in `.svg` matches none of the name-extension checks of the
dispatch rules that precede the image rule, and a declared MIME type of
`image/svg+xml` matches none of their MIME checks but does match the image
rule's `image/` prefix check: such a file is dispatched to OCR. -/
theorem svg_mime_dispatch (n : List Char) (h : endsWithL n extSvg = true) :
    isTextRule n mimeSvg = false ∧ isJsonRule n mimeSvg = false ∧
    isMarkupRule n mimeSvg = false ∧ isScriptRule n mimeSvg = false ∧
    isDocxRule n mimeSvg = false ∧ isExcelRule n mimeSvg = false ∧
    isPdfRule n mimeSvg = false ∧ isImageRule n mimeSvg = true := by
  have eTxt : endsWithL n extTxt = false :=
    endsWithL_excl h (by decide : ¬ extSvg <:+ extTxt) (by decide)
  have eMd : endsWithL n extMd = false :=
    endsWithL_excl h (by decide : ¬ extSvg <:+ extMd) (by decide)
  have eCsv : endsWithL n extCsv = false :=
    endsWithL_excl h (by decide : ¬ extSvg <:+ extCsv) (by decide)
  have eJson : endsWithL n extJson = false :=
    endsWithL_excl h (by decide : ¬ extSvg <:+ extJson) (by decide)
  have eXml : endsWithL n extXml = false :=
    endsWithL_excl h (by decide : ¬ extSvg <:+ extXml) (by decide)
  have eHtml : endsWithL n extHtml = false :=
    endsWithL_excl h (by decide : ¬ extSvg <:+ extHtml) (by decide)
  have eHtm : endsWithL n extHtm = false :=
    endsWithL_excl h (by decide : ¬ extSvg <:+ extHtm) (by decide)
  have eJs : endsWithL n extJs = false :=
    endsWithL_excl h (by decide : ¬ extSvg <:+ extJs) (by decide)
  have eCss : endsWithL n extCss = false :=
    endsWithL_excl h (by decide : ¬ extSvg <:+ extCss) (by decide)
  have eTs : endsWithL n extTs = false :=
    endsWithL_excl h (by decide : ¬ extSvg <:+ extTs) (by decide)
  have eTsx : endsWithL n extTsx = false :=
    endsWithL_excl h (by decide : ¬ extSvg <:+ extTsx) (by decide)
  have eJsx : endsWithL n extJsx = false :=
    endsWithL_excl h (by decide : ¬ extSvg <:+ extJsx) (by decide)
  have eDocx : endsWithL n extDocx = false :=
    endsWithL_excl h (by decide : ¬ extSvg <:+ extDocx) (by decide)
  have eXlsx : endsWithL n extXlsx = false :=
    endsWithL_excl h (by decide : ¬ extSvg <:+ extXlsx) (by decide)
  have eXls : endsWithL n extXls = false :=
    endsWithL_excl h (by decide : ¬ extSvg <:+ extXls) (by decide)
  have ePdf : endsWithL n extPdf = false :=
    endsWithL_excl h (by decide : ¬ extSvg <:+ extPdf) (by decide)
  refine ⟨?_, ?_, ?_, ?_, ?_, ?_, ?_, ?_⟩
  · simp [isTextRule, eTxt, eMd, eCsv, (by decide : startsWithL mimeSvg textSlash = false)]
  · simp [isJsonRule, eJson]
    decide
  · simp [isMarkupRule, eXml, eHtml, eHtm]
    decide
  · simp [isScriptRule, eJs, eCss, eTs, eTsx, eJsx]
    decide
  · simp [isDocxRule, eDocx]
    decide
  · simp [isExcelRule, eXlsx, eXls]
    decide
  · simp [isPdfRule, ePdf]
    decide
  · simp [isImageRule, (by decide : startsWithL mimeSvg imageSlash = true)]

/-! Concrete files and collaborator records used by the closed
counterexamples and witnesses. -/

/-- Recognized text returned by the demo OCR collaborator. -/
def ocrDemoText : List Char := "OCRRESULT".toList

/-- Collaborators whose OCR succeeds; `jsonParse` fails. -/
def demoCollab : Collaborators :=
  { jsonParse := fun _ => none, jsonStringify2 := fun _ => [],
    docx := Except.ok [], excelSheets := Except.ok [],
    pdfPages := Except.ok [], ocr := Except.ok ocrDemoText,
    archiveEntries := Except.ok [], imageDims := Except.error [] }

/-- Collaborators all of whose delegated calls throw. -/
def errCollab : Collaborators :=
  { jsonParse := fun _ => none, jsonStringify2 := fun _ => [],
    docx := Except.error [], excelSheets := Except.error [],
    pdfPages := Except.error [], ocr := Except.error [],
    archiveEntries := Except.error [], imageDims := Except.error [] }

/-- Collaborators whose `jsonParse` succeeds with `null`. -/
def parseOkCollab : Collaborators :=
  { jsonParse := fun _ => some Json.null, jsonStringify2 := fun _ => [],
    docx := Except.ok [], excelSheets := Except.ok [],
    pdfPages := Except.ok [], ocr := Except.ok [],
    archiveEntries := Except.ok [], imageDims := Except.error [] }

/-- An SVG file declared with MIME type `image/svg+xml`. -/
def svgFile : FileData :=
  { name := "diagram.svg".toList, type := "image/svg+xml".toList,
    lastModified := 7, content := [82, 65, 87] }

/-- A plain text file. -/
def txtFile : FileData :=
  { name := "notes.txt".toList, type := "text/plain".toList,
    lastModified := 5, content := [104, 105] }

/-- A JSON file. -/
def jsonFile : FileData :=
  { name := "data.json".toList, type := "application/json".toList,
    lastModified := 5, content := [110, 111] }

/-- A PNG image file. -/
def pngFile : FileData :=
  { name := "photo.png".toList, type := "image/png".toList,
    lastModified := 3, content := [1, 2, 3] }

/-- A Word document file. -/
def docxFile : FileData :=
  { name := "report.docx".toList, type := [],
    lastModified := 3, content := [3, 4] }

/-- An Excel file. -/
def xlsFile : FileData :=
  { name := "table.xls".toList, type := [],
    lastModified := 3, content := [3, 4] }

/-- A PDF file. -/
def pdfFile : FileData :=
  { name := "paper.pdf".toList, type := [],
    lastModified := 3, content := [3, 4] }

/-- A ZIP archive file. -/
def zipFile : FileData :=
  { name := "bundle.zip".toList, type := [],
    lastModified := 3, content := [3, 4] }

/-- An unknown binary file containing a zero byte. -/
def binFile : FileData :=
  { name := "blob.bin".toList, type := [],
    lastModified := 3, content := [0, 65, 66] }

/-- An unknown file with no zero byte in its content. -/
def rawFile : FileData :=
  { name := "blob.dat".toList, type := [],
    lastModified := 3, content := [65, 66, 67] }

/-! ### Claim C1 -/

/-- Claim C1 (counterexample): a file named `diagram.svg` with declared MIME
type `image/svg+xml` is dispatched to the OCR converter — the `image/`
prefix check of the image rule precedes the `.svg` rule — and the result is
not the raw bytes read as text. -/
theorem svg_mime_goes_to_ocr_counterexample :
    convertFileToText svgFile demoCollab = convertImageToText svgFile demoCollab ∧
    convertFileToText svgFile demoCollab ≠ Except.ok (readTextFile svgFile) :=
  ⟨rfl, by decide⟩

/-- Claim C1 (amended): a file whose declared MIME type is under `text/*` or
whose name ends in `.txt`, `.md` or `.csv` is read as raw bytes with no
transformation by the first dispatch rule; but a file with declared MIME
type `image/svg+xml` and a name ending in `.svg` is dispatched to OCR, not
read as raw text, because the image rule precedes the `.svg` rule. -/
theorem text_rule_reads_raw (f : FileData) (c : Collaborators) :
    (isTextRule (lowerL f.name) (lowerL f.type) = true →
      convertFileToText f c = Except.ok (readTextFile f)) ∧
    (lowerL f.type = mimeSvg → endsWithL (lowerL f.name) extSvg = true →
      convertFileToText f c = convertImageToText f c) := by
  constructor
  · intro h
    simp [convertFileToText, h]
  · intro ht hn
    obtain ⟨r1, r2, r3, r4, r5, r6, r7, r8⟩ := svg_mime_dispatch (lowerL f.name) hn
    simp only [convertFileToText, ht, r1, r2, r3, r4, r5, r6, r7, r8]
    simp

/-- Witness for the amended claim C1: the text rule fires on `notes.txt`
(MIME `text/plain`), and the SVG-MIME file `diagram.svg` is dispatched to
the OCR converter. -/
theorem text_rule_reads_raw_witness :
    (isTextRule (lowerL txtFile.name) (lowerL txtFile.type) = true ∧
      convertFileToText txtFile demoCollab = Except.ok (readTextFile txtFile)) ∧
    (lowerL svgFile.type = mimeSvg ∧ endsWithL (lowerL svgFile.name) extSvg = true ∧
      convertFileToText svgFile demoCollab = convertImageToText svgFile demoCollab) :=
  ⟨⟨by decide, (text_rule_reads_raw txtFile demoCollab).1 (by decide)⟩,
    ⟨by decide, by decide,
      (text_rule_reads_raw svgFile demoCollab).2 (by decide) (by decide)⟩⟩

/-! ### Claim C4 -/

/-- Claim C4 (counterexample): with a throwing OCR collaborator, the
converter applied to a PNG image succeeds with the image-metadata text; it
does not fail with an `ExtractionFailed` condition. -/
theorem ocr_throw_counterexample :
    convertFileToText pngFile errCollab =
      Except.ok (extractImageMetadata pngFile errCollab) ∧
    exceptIsOk (convertFileToText pngFile errCollab) = true :=
  ⟨rfl, rfl⟩

/-- Claim C4 (amended): when the OCR collaborator throws during image
extraction, `convertFileToText` does not fail — it returns the
image-metadata text; the document, spreadsheet, PDF and archive
collaborators' throws, by contrast, surface as errors carrying the
corresponding fixed failure messages. -/
theorem ocr_throw_falls_back_to_metadata (f : FileData) (c : Collaborators) (e : List Char) :
    (isTextRule (lowerL f.name) (lowerL f.type) = false →
      isJsonRule (lowerL f.name) (lowerL f.type) = false →
      isMarkupRule (lowerL f.name) (lowerL f.type) = false →
      isScriptRule (lowerL f.name) (lowerL f.type) = false →
      isDocxRule (lowerL f.name) (lowerL f.type) = false →
      isExcelRule (lowerL f.name) (lowerL f.type) = false →
      isPdfRule (lowerL f.name) (lowerL f.type) = false →
      isImageRule (lowerL f.name) (lowerL f.type) = true →
      c.ocr = Except.error e →
      convertFileToText f c = Except.ok (extractImageMetadata f c)) ∧
    (isTextRule (lowerL f.name) (lowerL f.type) = false →
      isJsonRule (lowerL f.name) (lowerL f.type) = false →
      isMarkupRule (lowerL f.name) (lowerL f.type) = false →
      isScriptRule (lowerL f.name) (lowerL f.type) = false →
      isDocxRule (lowerL f.name) (lowerL f.type) = true →
      c.docx = Except.error e →
      convertFileToText f c = Except.error failedDocxMsg) ∧
    (isTextRule (lowerL f.name) (lowerL f.type) = false →
      isJsonRule (lowerL f.name) (lowerL f.type) = false →
      isMarkupRule (lowerL f.name) (lowerL f.type) = false →
      isScriptRule (lowerL f.name) (lowerL f.type) = false →
      isDocxRule (lowerL f.name) (lowerL f.type) = false →
      isExcelRule (lowerL f.name) (lowerL f.type) = true →
      c.excelSheets = Except.error e →
      convertFileToText f c = Except.error failedExcelMsg) ∧
    (isTextRule (lowerL f.name) (lowerL f.type) = false →
      isJsonRule (lowerL f.name) (lowerL f.type) = false →
      isMarkupRule (lowerL f.name) (lowerL f.type) = false →
      isScriptRule (lowerL f.name) (lowerL f.type) = false →
      isDocxRule (lowerL f.name) (lowerL f.type) = false →
      isExcelRule (lowerL f.name) (lowerL f.type) = false →
      isPdfRule (lowerL f.name) (lowerL f.type) = true →
      c.pdfPages = Except.error e →
      convertFileToText f c = Except.error failedPdfMsg) ∧
    (isTextRule (lowerL f.name) (lowerL f.type) = false →
      isJsonRule (lowerL f.name) (lowerL f.type) = false →
      isMarkupRule (lowerL f.name) (lowerL f.type) = false →
      isScriptRule (lowerL f.name) (lowerL f.type) = false →
      isDocxRule (lowerL f.name) (lowerL f.type) = false →
      isExcelRule (lowerL f.name) (lowerL f.type) = false →
      isPdfRule (lowerL f.name) (lowerL f.type) = false →
      isImageRule (lowerL f.name) (lowerL f.type) = false →
      isArchiveRule (lowerL f.name) = true →
      c.archiveEntries = Except.error e →
      convertFileToText f c = Except.error failedArchiveMsg) := by
  refine ⟨?_, ?_, ?_, ?_, ?_⟩
  · intro h1 h2 h3 h4 h5 h6 h7 h8 hocr
    simp only [convertFileToText, h1, h2, h3, h4, h5, h6, h7, h8]
    simp [convertImageToText, hocr]
  · intro h1 h2 h3 h4 h5 hd
    simp only [convertFileToText, h1, h2, h3, h4, h5]
    simp [convertDocxToText, hd]
  · intro h1 h2 h3 h4 h5 h6 hx
    simp only [convertFileToText, h1, h2, h3, h4, h5, h6]
    simp [convertExcelToText, hx]
  · intro h1 h2 h3 h4 h5 h6 h7 hp
    simp only [convertFileToText, h1, h2, h3, h4, h5, h6, h7]
    simp [convertPdfToText, hp]
  · intro h1 h2 h3 h4 h5 h6 h7 h8 h9 ha
    simp only [convertFileToText, h1, h2, h3, h4, h5, h6, h7, h8, h9]
    simp [convertArchiveToText, ha]

/-- Witness for the amended claim C4: all five delegated collaborators of
`errCollab` throw; the PNG image still converts to its metadata text, while
the Word, Excel, PDF and archive files fail with their fixed messages. -/
theorem ocr_throw_falls_back_to_metadata_witness :
    (errCollab.ocr = Except.error [] ∧
      convertFileToText pngFile errCollab =
        Except.ok (extractImageMetadata pngFile errCollab)) ∧
    convertFileToText docxFile errCollab = Except.error failedDocxMsg ∧
    convertFileToText xlsFile errCollab = Except.error failedExcelMsg ∧
    convertFileToText pdfFile errCollab = Except.error failedPdfMsg ∧
    convertFileToText zipFile errCollab = Except.error failedArchiveMsg :=
  ⟨⟨rfl, (ocr_throw_falls_back_to_metadata pngFile errCollab []).1 (by decide)
      (by decide) (by decide) (by decide) (by decide) (by decide) (by decide)
      (by decide) rfl⟩,
    (ocr_throw_falls_back_to_metadata docxFile errCollab []).2.1 (by decide)
      (by decide) (by decide) (by decide) (by decide) rfl,
    (ocr_throw_falls_back_to_metadata xlsFile errCollab []).2.2.1 (by decide)
      (by decide) (by decide) (by decide) (by decide) (by decide) rfl,
    (ocr_throw_falls_back_to_metadata pdfFile errCollab []).2.2.2.1 (by decide)
      (by decide) (by decide) (by decide) (by decide) (by decide) (by decide) rfl,
    (ocr_throw_falls_back_to_metadata zipFile errCollab []).2.2.2.2 (by decide)
      (by decide) (by decide) (by decide) (by decide) (by decide) (by decide)
      (by decide) (by decide) rfl⟩

/-! ### Claim C5 -/

/-- Claim C5: a file dispatched by the JSON rule never fails due to
malformed JSON: when `JSON.parse` throws, the verbatim text is returned;
when it succeeds, the value re-serialized by `JSON.stringify(·, null, 2)` is
returned; either way the conversion succeeds. -/
theorem json_parse_failure_falls_back (f : FileData) (c : Collaborators)
    (h1 : isTextRule (lowerL f.name) (lowerL f.type) = false)
    (h2 : isJsonRule (lowerL f.name) (lowerL f.type) = true) :
    (c.jsonParse (readTextFile f) = none →
      convertFileToText f c = Except.ok (readTextFile f)) ∧
    (∀ j, c.jsonParse (readTextFile f) = some j →
      convertFileToText f c = Except.ok (c.jsonStringify2 j)) ∧
    exceptIsOk (convertFileToText f c) = true := by
  have hc : convertFileToText f c =
      match c.jsonParse (readTextFile f) with
      | some j => Except.ok (c.jsonStringify2 j)
      | none => Except.ok (readTextFile f) := by
    simp only [convertFileToText, h1, h2]
    simp
  refine ⟨fun hp => ?_, fun j hp => ?_, ?_⟩
  · rw [hc, hp]
  · rw [hc, hp]
  · rw [hc]
    cases c.jsonParse (readTextFile f) <;> rfl

/-- Witness for claim C5 on `data.json`: with a failing parser the verbatim
text comes back; with a succeeding parser the re-serialization comes back. -/
theorem json_parse_failure_falls_back_witness :
    (isTextRule (lowerL jsonFile.name) (lowerL jsonFile.type) = false ∧
      isJsonRule (lowerL jsonFile.name) (lowerL jsonFile.type) = true) ∧
    convertFileToText jsonFile errCollab = Except.ok (readTextFile jsonFile) ∧
    convertFileToText jsonFile parseOkCollab =
      Except.ok (parseOkCollab.jsonStringify2 Json.null) :=
  ⟨⟨by decide, by decide⟩,
    (json_parse_failure_falls_back jsonFile errCollab (by decide) (by decide)).1 rfl,
    (json_parse_failure_falls_back jsonFile parseOkCollab (by decide)
      (by decide)).2.1 Json.null rfl⟩

/-! ### Claim C6 -/

/-- Claim C6: for a file that reaches the fallback dispatch rule, the
converter classifies it as binary — and runs the binary-info extraction —
exactly when one of the first `min 1000 length` bytes is zero, and otherwise
reads it as text. -/
theorem fallback_zero_byte_classification (f : FileData) (c : Collaborators)
    (h1 : isTextRule (lowerL f.name) (lowerL f.type) = false)
    (h2 : isJsonRule (lowerL f.name) (lowerL f.type) = false)
    (h3 : isMarkupRule (lowerL f.name) (lowerL f.type) = false)
    (h4 : isScriptRule (lowerL f.name) (lowerL f.type) = false)
    (h5 : isDocxRule (lowerL f.name) (lowerL f.type) = false)
    (h6 : isExcelRule (lowerL f.name) (lowerL f.type) = false)
    (h7 : isPdfRule (lowerL f.name) (lowerL f.type) = false)
    (h8 : isImageRule (lowerL f.name) (lowerL f.type) = false)
    (h9 : isArchiveRule (lowerL f.name) = false)
    (h10 : isSvgRule (lowerL f.name) (lowerL f.type) = false)
    (h11 : isLogRule (lowerL f.name) = false) :
    (hasZeroByte f.content = true ↔
      ∃ i, i < min 1000 f.content.length ∧ f.content[i]? = some 0) ∧
    (hasZeroByte f.content = true →
      convertFileToText f c = Except.ok (extractBinaryFileInfo f f.content)) ∧
    (hasZeroByte f.content = false →
      convertFileToText f c = Except.ok (readTextFile f)) := by
  refine ⟨?_, fun hz => ?_, fun hz => ?_⟩
  · unfold hasZeroByte
    rw [List.any_eq_true]
    constructor
    · rintro ⟨x, hx, hxx⟩
      obtain ⟨i, hi⟩ := List.mem_iff_getElem?.mp hx
      have hlen : i < (f.content.take 1000).length :=
        (List.getElem?_eq_some_iff.mp hi).1
      rw [List.length_take] at hlen
      refine ⟨i, hlen, ?_⟩
      have ht : (f.content.take 1000)[i]? = f.content[i]? :=
        List.getElem?_take_of_lt (by omega)
      rw [← ht, hi]
      have : x = 0 := by simpa using hxx
      rw [this]
    · rintro ⟨i, hi, hsome⟩
      have ht : (f.content.take 1000)[i]? = f.content[i]? :=
        List.getElem?_take_of_lt (by omega)
      rw [← ht] at hsome
      exact ⟨0, List.getElem?_mem hsome, by decide⟩
  · simp only [convertFileToText, h1, h2, h3, h4, h5, h6, h7, h8, h9, h10, h11, hz]
    simp
  · simp only [convertFileToText, h1, h2, h3, h4, h5, h6, h7, h8, h9, h10, h11, hz]
    simp

/-- Witness for claim C6: `blob.bin` (content `[0, 65, 66]`) is classified
as binary and its info block is extracted; `blob.dat` (content
`[65, 66, 67]`) is read as text. -/
theorem fallback_zero_byte_classification_witness :
    (hasZeroByte binFile.content = true ∧
      convertFileToText binFile errCollab =
        Except.ok (extractBinaryFileInfo binFile binFile.content)) ∧
    (hasZeroByte rawFile.content = false ∧
      convertFileToText rawFile errCollab = Except.ok (readTextFile rawFile)) :=
  ⟨⟨by decide, (fallback_zero_byte_classification binFile errCollab (by decide)
      (by decide) (by decide) (by decide) (by decide) (by decide) (by decide)
      (by decide) (by decide) (by decide) (by decide)).2.1 (by decide)⟩,
    ⟨by decide, (fallback_zero_byte_classification rawFile errCollab (by decide)
      (by decide) (by decide) (by decide) (by decide) (by decide) (by decide)
      (by decide) (by decide) (by decide) (by decide)).2.2 (by decide)⟩⟩

/-! ### Claim C2 -/

/-- The count the `wordCount` association list assigns to a key (0 when
absent). -/
def keyCnt : List (List Char × Nat) → List Char → Nat
  | [], _ => 0
  | (k, n) :: rest, w => if k = w then n else keyCnt rest w

/-- Bumping increments the bumped key. -/
theorem keyCnt_bump_self : ∀ (acc : List (List Char × Nat)) (w : List Char),
    keyCnt (bump acc w) w = keyCnt acc w + 1
  | [], w => by simp [bump, keyCnt]
  | (k, n) :: rest, w => by
    by_cases h : k = w
    · simp [bump, keyCnt, h]
    · simp [bump, keyCnt, h, keyCnt_bump_self rest w]

/-- Bumping leaves other keys unchanged. -/
theorem keyCnt_bump_ne : ∀ (acc : List (List Char × Nat)) {v w : List Char}, v ≠ w →
    keyCnt (bump acc w) v = keyCnt acc v
  | [], v, w, h => by
    simp [bump, keyCnt, h.symm]
  | (k, n) :: rest, v, w, h => by
    by_cases hk : k = w
    · simp [bump, keyCnt, hk, h.symm]
    · simp [bump, keyCnt, hk, keyCnt_bump_ne rest h]

/-- The keys after a `bump`: unchanged when present, appended when absent. -/
theorem fst_bump : ∀ (acc : List (List Char × Nat)) (w : List Char),
    (bump acc w).map Prod.fst =
      if w ∈ acc.map Prod.fst then acc.map Prod.fst else acc.map Prod.fst ++ [w]
  | [], w => by simp [bump]
  | (k, n) :: rest, w => by
    by_cases h : k = w
    · simp [bump, h]
    · have hne : ¬ w = k := fun hh => h hh.symm
      simp only [bump, if_neg h, List.map_cons, fst_bump rest w, List.mem_cons]
      by_cases h2 : w ∈ rest.map Prod.fst
      · rw [if_pos h2, if_pos (Or.inr h2)]
      · rw [if_neg h2, if_neg (by rintro (hh | hh) <;> [exact hne hh; exact h2 hh])]
        simp

/-- Bumping preserves key distinctness. -/
theorem nodup_fst_bump (acc : List (List Char × Nat)) (w : List Char)
    (h : (acc.map Prod.fst).Nodup) : ((bump acc w).map Prod.fst).Nodup := by
  rw [fst_bump]
  split_ifs with h2
  · exact h
  · exact h.append (List.nodup_singleton w) (by simpa using h2)

/-- Every entry of a `bump` comes from the accumulator or carries the bumped
key. -/
theorem mem_bump : ∀ (acc : List (List Char × Nat)) (w : List Char) (p : List Char × Nat),
    p ∈ bump acc w → p ∈ acc ∨ p.1 = w
  | [], w, p, hp => by
    simp only [bump, List.mem_singleton] at hp
    exact Or.inr (show p.1 = w by rw [hp])
  | (k, n) :: rest, w, p, hp => by
    by_cases h : k = w
    · rw [bump, if_pos h] at hp
      rcases List.mem_cons.mp hp with h1 | h1
      · exact Or.inr (by rw [h1, h])
      · exact Or.inl (List.mem_cons_of_mem _ h1)
    · rw [bump, if_neg h] at hp
      rcases List.mem_cons.mp hp with h1 | h1
      · exact Or.inl (h1 ▸ List.mem_cons_self _ _)
      · rcases mem_bump rest w p h1 with h2 | h2
        · exact Or.inl (List.mem_cons_of_mem _ h2)
        · exact Or.inr h2

/-- The count after the folding loop: the accumulator's count plus the
token's multiplicity when the token passes the guard. -/
theorem keyCnt_foldl : ∀ (ws : List (List Char)) (acc : List (List Char × Nat))
    (v : List Char),
    keyCnt (List.foldl kwStep acc ws) v =
      keyCnt acc v + if keywordKeep v then ws.count v else 0
  | [], acc, v => by simp
  | w :: ws, acc, v => by
    rw [List.foldl_cons, keyCnt_foldl ws (kwStep acc w) v]
    unfold kwStep
    by_cases hv : w = v
    · subst hv
      by_cases hw : keywordKeep w
      · rw [if_pos hw, if_pos hw, if_pos hw, keyCnt_bump_self, List.count_cons_self]
        omega
      · rw [if_neg hw, if_neg hw, if_neg hw]
    · have hcnt : List.count v (w :: ws) = List.count v ws :=
        List.count_cons_of_ne (fun hh => hv hh.symm) ws
      by_cases hw : keywordKeep w
      · rw [if_pos hw, keyCnt_bump_ne acc (fun hh => hv hh.symm), hcnt]
      · rw [if_neg hw, hcnt]

/-- The folding loop preserves key distinctness. -/
theorem nodup_fst_foldl : ∀ (ws : List (List Char)) (acc : List (List Char × Nat)),
    (acc.map Prod.fst).Nodup → ((List.foldl kwStep acc ws).map Prod.fst).Nodup
  | [], _, h => h
  | w :: ws, acc, h => by
    rw [List.foldl_cons]
    refine nodup_fst_foldl ws _ ?_
    unfold kwStep
    split_ifs with hk
    · exact nodup_fst_bump acc w h
    · exact h

/-- Every entry produced by the folding loop passed the guard (or was already
in the accumulator). -/
theorem mem_foldl_kwStep : ∀ (ws : List (List Char)) (acc : List (List Char × Nat))
    (p : List Char × Nat),
    p ∈ List.foldl kwStep acc ws → p ∈ acc ∨ keywordKeep p.1 = true
  | [], _, _, hp => Or.inl hp
  | w :: ws, acc, p, hp => by
    rw [List.foldl_cons] at hp
    rcases mem_foldl_kwStep ws (kwStep acc w) p hp with h1 | h1
    · unfold kwStep at h1
      split_ifs at h1 with hk
      · rcases mem_bump acc w p h1 with h2 | h2
        · exact Or.inl h2
        · exact Or.inr (by rw [h2]; exact hk)
      · exact Or.inl h1
    · exact Or.inr h1

/-- With distinct keys, an entry's stored count is its lookup. -/
theorem keyCnt_of_mem : ∀ (acc : List (List Char × Nat)),
    (acc.map Prod.fst).Nodup → ∀ p ∈ acc, keyCnt acc p.1 = p.2
  | [], _, p, hp => absurd hp (List.not_mem_nil p)
  | (k, n) :: rest, h, p, hp => by
    rcases List.mem_cons.mp hp with h1 | h1
    · rw [h1]
      simp [keyCnt]
    · have hk : ¬ k = p.1 := by
        intro hh
        have hm : p.1 ∈ rest.map Prod.fst := List.mem_map_of_mem Prod.fst h1
        rw [← hh] at hm
        exact (List.nodup_cons.mp h).1 hm
      rw [show keyCnt ((k, n) :: rest) p.1 = if k = p.1 then n else keyCnt rest p.1
        from rfl, if_neg hk]
      exact keyCnt_of_mem rest (List.nodup_cons.mp h).2 p h1

/-- The keys of the count structure are distinct. -/
theorem wordCount_nodup (text : List Char) :
    ((wordCount text).map Prod.fst).Nodup :=
  nodup_fst_foldl _ [] (by simp)

/-- A token that passes the guard is long and not a stop word. -/
theorem keywordKeep_spec {w : List Char} (h : keywordKeep w = true) :
    3 < w.length ∧ w ∉ stopWords := by
  unfold keywordKeep at h
  rw [Bool.and_eq_true] at h
  refine ⟨by simpa using h.2, fun hm => ?_⟩
  have h1 := h.1
  rw [Bool.not_eq_true'] at h1
  rw [show stopWords.contains w = stopWords.elem w from rfl] at h1
  rw [List.elem_iff.mpr hm] at h1
  cases h1

/-- Every entry of the count structure passed the guard and stores the
token's frequency in the punctuation-stripped tokenization. -/
theorem mem_wordCount {text : List Char} {p : List Char × Nat}
    (hp : p ∈ wordCount text) :
    keywordKeep p.1 = true ∧ p.2 = (rawKeywordTokens text).count p.1 := by
  have hk : keywordKeep p.1 = true :=
    (mem_foldl_kwStep _ [] p hp).resolve_left (by simp)
  refine ⟨hk, ?_⟩
  have h2 : keyCnt (wordCount text) p.1 = p.2 :=
    keyCnt_of_mem _ (wordCount_nodup text) p hp
  have h3 := keyCnt_foldl (keywordWords text) [] p.1
  rw [show wordCount text = (keywordWords text).foldl kwStep [] from rfl] at h2
  rw [h3, if_pos hk] at h2
  have h4 : (keywordWords text).count p.1 = (rawKeywordTokens text).count p.1 := by
    unfold keywordWords
    exact List.count_filter (by simpa using (keywordKeep_spec hk).1)
  rw [show keyCnt [] p.1 = 0 from rfl] at h2
  omega

/-- The comparator is transitive. -/
theorem keywordLE_trans (a b c : List Char × Nat) :
    keywordLE a b → keywordLE b c → keywordLE a c := by
  simp only [keywordLE, decide_eq_true_eq]
  omega

/-- The comparator is total. -/
theorem keywordLE_total (a b : List Char × Nat) : keywordLE a b || keywordLE b a := by
  simp only [keywordLE, Bool.or_eq_true, decide_eq_true_eq]
  omega

/-- The sorted count structure is ordered by non-increasing count. -/
theorem sortedWordCount_pairwise (text : List Char) :
    (sortedWordCount text).Pairwise (fun a b => b.2 ≤ a.2) := by
  have h := List.sorted_mergeSort keywordLE_trans keywordLE_total (wordCount text)
  exact h.imp (fun hab => by simpa [keywordLE] using hab)

/-- Stability: within one count value, the sorted structure lists entries in
their first-encountered (insertion) order. -/
theorem sortedWordCount_filter_eq (text : List Char) (cnum : Nat) :
    (sortedWordCount text).filter (fun p => p.2 == cnum) =
      (wordCount text).filter (fun p => p.2 == cnum) := by
  have hpw : ((wordCount text).filter (fun p => p.2 == cnum)).Pairwise
      (fun a b => keywordLE a b = true) := by
    apply List.pairwise_of_forall_mem_list
    intro a ha b hb
    have ha2 : a.2 = cnum := by simpa using (List.mem_filter.mp ha).2
    have hb2 : b.2 = cnum := by simpa using (List.mem_filter.mp hb).2
    simp [keywordLE, ha2, hb2]
  have hsub : (wordCount text).filter (fun p => p.2 == cnum) <+ sortedWordCount text :=
    List.sublist_mergeSort keywordLE_trans keywordLE_total hpw (List.filter_sublist _)
  have h2 := hsub.filter (fun p => p.2 == cnum)
  rw [List.filter_eq_self.mpr (fun a ha => (List.mem_filter.mp ha).2)] at h2
  have hperm : (sortedWordCount text).filter (fun p => p.2 == cnum) ~
      (wordCount text).filter (fun p => p.2 == cnum) :=
    (List.mergeSort_perm (wordCount text) keywordLE).filter _
  exact (h2.eq_of_length hperm.length_eq.symm).symm

/-- Claim C2: keyword extraction returns at most 8 entries, each longer than
3 characters and outside the stop-word set; the entries descend in stored
frequency (which equals the token's multiplicity in the lower-cased,
punctuation-stripped tokenization); and they are the first 8 keys of the
stable descending sort of the count structure, which within equal counts
preserves first-encountered (insertion) order. -/
theorem extractKeywords_spec (text : List Char) :
    (extractKeywords text).length ≤ 8 ∧
    (∀ w ∈ extractKeywords text, 3 < w.length ∧ w ∉ stopWords) ∧
    (∀ p ∈ wordCount text, p.2 = (rawKeywordTokens text).count p.1) ∧
    (extractKeywords text).Pairwise
      (fun a b => keyCnt (wordCount text) b ≤ keyCnt (wordCount text) a) ∧
    extractKeywords text = ((sortedWordCount text).take 8).map Prod.fst ∧
    sortedWordCount text ~ wordCount text ∧
    (sortedWordCount text).Pairwise (fun a b => b.2 ≤ a.2) ∧
    (∀ cnum : Nat, (sortedWordCount text).filter (fun p => p.2 == cnum) =
      (wordCount text).filter (fun p => p.2 == cnum)) := by
  have hmemwc : ∀ p ∈ (sortedWordCount text).take 8, p ∈ wordCount text := by
    intro p hp
    have h1 : p ∈ sortedWordCount text := List.mem_of_mem_take hp
    rwa [sortedWordCount, List.mem_mergeSort] at h1
  refine ⟨?_, ?_, ?_, ?_, rfl, List.mergeSort_perm _ _, sortedWordCount_pairwise text,
    sortedWordCount_filter_eq text⟩
  · rw [extractKeywords, List.length_map, List.length_take]
    omega
  · intro w hw
    rw [extractKeywords, List.mem_map] at hw
    obtain ⟨p, hp, rfl⟩ := hw
    exact keywordKeep_spec (mem_wordCount (hmemwc p hp)).1
  · exact fun p hp => (mem_wordCount hp).2
  · rw [extractKeywords, List.pairwise_map]
    have htake : ((sortedWordCount text).take 8).Pairwise (fun a b => b.2 ≤ a.2) :=
      (sortedWordCount_pairwise text).sublist (List.take_sublist 8 _)
    refine htake.imp_of_mem ?_
    intro a b ha hb hab
    rw [keyCnt_of_mem _ (wordCount_nodup text) a (hmemwc a ha),
      keyCnt_of_mem _ (wordCount_nodup text) b (hmemwc b hb)]
    exact hab

/-- The key of the claim C2 witness. -/
def wordTok : List Char := "word".toList

/-- The text of the claim C2 witness. -/
def kwWitnessText : List Char := "word word".toList

/-- Witness for claim C2 on the text `word word`: the single extracted
keyword `word` is longer than 3 characters, is not a stop word, and its
stored count 2 is its multiplicity in the tokenization. -/
theorem extractKeywords_spec_witness :
    (wordTok ∈ extractKeywords kwWitnessText ∧ 3 < wordTok.length ∧
      wordTok ∉ stopWords) ∧
    ((wordTok, 2) ∈ wordCount kwWitnessText ∧
      (2 : Nat) = (rawKeywordTokens kwWitnessText).count wordTok) := by
  have hwc : wordCount kwWitnessText = [(wordTok, 2)] := by decide
  have hx : extractKeywords kwWitnessText = [wordTok] := by
    rw [extractKeywords, sortedWordCount, hwc, List.mergeSort_singleton]
    rfl
  have hmem : wordTok ∈ extractKeywords kwWitnessText := by
    rw [hx]
    exact List.mem_singleton.mpr rfl
  have hpmem : (wordTok, 2) ∈ wordCount kwWitnessText := by
    rw [hwc]
    exact List.mem_singleton.mpr rfl
  have hB := (extractKeywords_spec kwWitnessText).2.1 wordTok hmem
  have hD := (extractKeywords_spec kwWitnessText).2.2.1 (wordTok, 2) hpmem
  exact ⟨⟨hmem, hB.1, hB.2⟩, ⟨hpmem, hD⟩⟩

end Knotting
